import Mathlib

/-!
Verification of the survival-simulation engine (sim/physiology.py, sim/hunters.py,
sim/trophy.py, sim/hazards.py, sim/observation.py, sim/env.py) against its
natural-language specification.

Python floats are embedded as exact rationals (ℚ), machine ints as ℤ/ℕ.
Stateful methods become pure functions returning the updated state; the
numpy random generator is embedded as an explicit stream of pre-drawn
values threaded through every call that consumes randomness.
-/

namespace Earth33

/-- Terrain categories (config_io/schema.py, class Terrain). -/
inductive Terrain where
  | PLAINS | FOREST | DESERT | TUNDRA | MOUNTAIN | WATER | SWAMP
deriving DecidableEq, Repr

/-- Action types (config_io/schema.py, class ActionType). -/
inductive ActionType where
  | MOVE_N | MOVE_S | MOVE_E | MOVE_W
  | REST | DRINK | FORAGE | BUILD_SHELTER | HIDE | SIGNAL
deriving DecidableEq, Repr

/-- Causes of death (config_io/schema.py, class CauseOfDeath). -/
inductive CauseOfDeath where
  | ALIVE | DEHYDRATION | STARVATION | HYPOTHERMIA
  | HYPERTHERMIA | TRAUMA | INFECTION | HUNTED
deriving DecidableEq, Repr

/-- Physiology configuration (config_io/config.py, class PhysiologyConfig).
Only the fields used by apply_physiology / check_death are modelled. -/
structure PhysiologyConfig where
  hydration_base_drain : ℚ := 0.8
  energy_base_drain : ℚ := 0.6
  fatigue_base_gain : ℚ := 0.7
  rest_fatigue_recovery : ℚ := 4.0
  injury_recovery_rate : ℚ := 0.2
  thermal_drift_k : ℚ := 0.008
  death_hydration : ℚ := 0.0
  death_energy : ℚ := 0.0
  death_core_temp_low : ℚ := 30.0
  death_core_temp_high : ℚ := 42.0
  death_injury : ℚ := 100.0
  death_infection : ℚ := 100.0
deriving DecidableEq, Repr

/-- The default physiology configuration (config_io/config.py defaults). -/
def defaultPhysiologyConfig : PhysiologyConfig := {}

/-- Organism state (sim/physiology.py, class OrganismState).
The inventory dict is not modelled (unused by every update path verified here). -/
structure OrganismState where
  x : ℤ := 0
  y : ℤ := 0
  hydration : ℚ := 80.0
  energy : ℚ := 80.0
  core_temp_c : ℚ := 37.0
  fatigue : ℚ := 10.0
  injury : ℚ := 0.0
  infection : ℚ := 0.0
  alive : Bool := true
  cause_of_death : CauseOfDeath := CauseOfDeath.ALIVE
  age_steps : ℕ := 0
  has_shelter : Bool := false
  shelter_durability : ℤ := 0
deriving DecidableEq, Repr

/-- clamp (config_io/utils.py): max(lo, min(hi, value)). -/
def clamp (value lo hi : ℚ) : ℚ := max lo (min hi value)

/-- Activity multipliers per action (sim/physiology.py, _ACTIVITY_MULT).
The dict covers every action, so the Python .get(action, 1.0) default is dead. -/
def activityMult : ActionType → ℚ
  | ActionType.MOVE_N => 1.5
  | ActionType.MOVE_S => 1.5
  | ActionType.MOVE_E => 1.5
  | ActionType.MOVE_W => 1.5
  | ActionType.REST => 0.7
  | ActionType.DRINK => 0.9
  | ActionType.FORAGE => 1.3
  | ActionType.BUILD_SHELTER => 1.4
  | ActionType.HIDE => 0.8
  | ActionType.SIGNAL => 0.8

/-- Whether an action is one of the four movement actions. -/
def isMoveAction : ActionType → Bool
  | ActionType.MOVE_N => true
  | ActionType.MOVE_S => true
  | ActionType.MOVE_E => true
  | ActionType.MOVE_W => true
  | _ => false

/-- apply_physiology (sim/physiology.py, lines 72-136), embedded as a pure
state transformer. The source also returns a delta dict; the deltas are the
differences of the pre-clamp fields and are not separately modelled. -/
def applyPhysiology (s : OrganismState) (action : ActionType) (air_temp : ℚ)
    (shelter_active : Bool) (movement_cost dt : ℚ) (cfg : PhysiologyConfig)
    (difficulty_mult : ℚ) : OrganismState :=
  let act_mult := activityMult action
  let act_mult := if isMoveAction action then act_mult * movement_cost else act_mult
  let heat_mult := max 0 ((air_temp - 30) / 10) * 0.8
  let h_drain := (cfg.hydration_base_drain * act_mult + heat_mult) * dt * difficulty_mult
  let hydration := s.hydration - h_drain
  let e_drain := cfg.energy_base_drain * act_mult * dt * difficulty_mult
  let energy := s.energy - e_drain
  let f_change :=
    if action = ActionType.REST then -(cfg.rest_fatigue_recovery * dt)
    else cfg.fatigue_base_gain * act_mult * dt * difficulty_mult
  let fatigue := s.fatigue + f_change
  let shelter_k := cfg.thermal_drift_k * (if shelter_active then 0.3 else 1)
  let temp_drift := (air_temp - s.core_temp_c) * shelter_k * dt
  let core_temp_c := s.core_temp_c + temp_drift
  let injury :=
    if action = ActionType.REST ∧ fatigue < 40 then s.injury - cfg.injury_recovery_rate * dt
    else s.injury
  let infection :=
    if injury > 20 ∧ (air_temp < 5 ∨ air_temp > 38) then s.infection + 0.3 * (injury / 100) * dt
    else s.infection
  { s with
      hydration := clamp hydration 0 100
      energy := clamp energy 0 100
      fatigue := clamp fatigue 0 100
      injury := clamp injury 0 100
      infection := clamp infection 0 100
      core_temp_c := core_temp_c }

/-- check_death (sim/physiology.py, lines 139-159): sets cause_of_death and
alive := false on the first crossed threshold, returns not alive. -/
def checkDeath (s : OrganismState) (cfg : PhysiologyConfig) : OrganismState × Bool :=
  let s :=
    if s.hydration ≤ cfg.death_hydration then
      { s with alive := false, cause_of_death := CauseOfDeath.DEHYDRATION }
    else if s.energy ≤ cfg.death_energy then
      { s with alive := false, cause_of_death := CauseOfDeath.STARVATION }
    else if s.core_temp_c ≤ cfg.death_core_temp_low then
      { s with alive := false, cause_of_death := CauseOfDeath.HYPOTHERMIA }
    else if s.core_temp_c ≥ cfg.death_core_temp_high then
      { s with alive := false, cause_of_death := CauseOfDeath.HYPERTHERMIA }
    else if s.injury ≥ cfg.death_injury then
      { s with alive := false, cause_of_death := CauseOfDeath.TRAUMA }
    else if s.infection ≥ cfg.death_infection then
      { s with alive := false, cause_of_death := CauseOfDeath.INFECTION }
    else s
  (s, !s.alive)

/-- Modelled from the spec: the first crossed death threshold in the fixed
priority order dehydration > starvation > hypothermia > hyperthermia >
trauma > infection, or none when no threshold is crossed. -/
def priorityCauseSpec (s : OrganismState) (cfg : PhysiologyConfig) : Option CauseOfDeath :=
  if s.hydration ≤ cfg.death_hydration then some CauseOfDeath.DEHYDRATION
  else if s.energy ≤ cfg.death_energy then some CauseOfDeath.STARVATION
  else if s.core_temp_c ≤ cfg.death_core_temp_low then some CauseOfDeath.HYPOTHERMIA
  else if s.core_temp_c ≥ cfg.death_core_temp_high then some CauseOfDeath.HYPERTHERMIA
  else if s.injury ≥ cfg.death_injury then some CauseOfDeath.TRAUMA
  else if s.infection ≥ cfg.death_infection then some CauseOfDeath.INFECTION
  else none

/-- An organism that was killed by a hunter this tick (alive=false,
cause_of_death=HUNTED) while its hydration also sits at the death threshold. -/
def huntedDehydrated : OrganismState :=
  { hydration := 0, energy := 50, core_temp_c := 37, fatigue := 20,
    injury := 10, infection := 5, alive := false,
    cause_of_death := CauseOfDeath.HUNTED }

/-- An organism already dead (cause HUNTED) with every vital strictly on the
safe side of all death thresholds. -/
def deadSafeVitals : OrganismState :=
  { hydration := 50, energy := 50, core_temp_c := 37, fatigue := 20,
    injury := 10, infection := 5, alive := false,
    cause_of_death := CauseOfDeath.HUNTED }

/-- An alive organism whose hydration is exactly 0. -/
def aliveZeroHydration : OrganismState :=
  { hydration := 0, energy := 50, core_temp_c := 37, fatigue := 20,
    injury := 10, infection := 5 }

/-- The default-constructed organism state (OrganismState dataclass defaults). -/
def baseState : OrganismState := {}

/-- Embedding of numpy.random.Generator as explicit streams of pre-drawn
values: floats is the stream of outputs of rng.random() (each intended in
[0,1); rng.uniform(a,b) is a + u * (b - a) for the next stream value u), and
ints feeds rng.integers(lo, hi), whose result is lo + n % (hi - lo), always
inside [lo, hi) for hi > lo. -/
structure Rng where
  floats : List ℚ
  ints : List ℤ
deriving DecidableEq, Repr

/-- One output of rng.random(); consumes one element of the float stream. -/
def Rng.nextFloat (r : Rng) : ℚ × Rng :=
  (r.floats.headD 0, { r with floats := r.floats.tail })

/-- One output of rng.integers(lo, hi) (half-open interval). -/
def Rng.nextInt (r : Rng) (lo hi : ℤ) : ℤ × Rng :=
  (lo + r.ints.headD 0 % (hi - lo), { r with ints := r.ints.tail })

/-- An Rng whose streams are exhausted (every further draw yields the
default 0). -/
def emptyRng : Rng := ⟨[], []⟩

/-- Result dict of check_wildlife_encounter (sim/hazards.py). -/
structure EncounterResult where
  encounter : Bool
  injury_delta : ℚ
  energy_delta : ℚ
  infection_delta : ℚ
deriving DecidableEq, Repr

/-- _hazard_time_multiplier (sim/hazards.py, lines 11-17). -/
def hazardTimeMultiplier (hour : ℤ) : ℚ :=
  if (5 ≤ hour ∧ hour ≤ 7) ∨ (18 ≤ hour ∧ hour ≤ 20) then 1.5
  else if 22 ≤ hour ∨ hour ≤ 4 then 1.8
  else 1

/-- _stealth_modifier (sim/hazards.py, lines 20-28). -/
def stealthModifier : ActionType → ℚ
  | ActionType.HIDE => 0.6
  | ActionType.REST => 0.3
  | ActionType.BUILD_SHELTER => -0.1
  | ActionType.FORAGE => -0.1
  | _ => 0

/-- check_wildlife_encounter (sim/hazards.py, lines 31-65). The source
mutates the organism in place and returns the event dict; here the updated
organism, the event dict and the advanced rng are returned. The terrain
parameter is accepted but unused, exactly as in the source. -/
def checkWildlifeEncounter (s : OrganismState) (wildlife_risk : ℚ)
    (terrain : Terrain) (hour : ℤ) (action : ActionType) (rng : Rng)
    (hazard_multiplier : ℚ) : OrganismState × EncounterResult × Rng :=
  let time_mult := hazardTimeMultiplier hour
  let stealth := stealthModifier action
  let p := wildlife_risk * time_mult * (1 - stealth) * 0.3 * hazard_multiplier
  let p := max 0 (min 1 p)
  let (u, rng) := rng.nextFloat
  let encounter := decide (u < p)
  if encounter then
    let (u1, rng) := rng.nextFloat
    let severity := 3 + u1 * (15 - 3)
    let (u2, rng) := rng.nextFloat
    let energy_delta := -(2 + u2 * (6 - 2))
    let (u3, rng) := rng.nextFloat
    let infection_delta := 0 + u3 * (3 - 0)
    let s := { s with
      injury := min 100 (max 0 (s.injury + severity)),
      energy := min 100 (max 0 (s.energy + energy_delta)),
      infection := min 100 (max 0 (s.infection + infection_delta)) }
    (s, ⟨true, severity, energy_delta, infection_delta⟩, rng)
  else
    (s, ⟨false, 0, 0, 0⟩, rng)

/-- Static world data needed by the verified components (sim/world.py,
class WorldState): dimensions and the per-cell grids, embedded as functions
of (x, y). The source indexes its numpy arrays as array[y, x]; terrain_at
translates the stored terrain id back to the Terrain enum. -/
structure World where
  w : ℤ
  h : ℤ
  terrainAt : ℤ → ℤ → Terrain
  water_availability : ℤ → ℤ → ℚ
  vegetation_biomass : ℤ → ℤ → ℚ

/-- in_bounds (sim/world.py, line 282): 0 <= x < w and 0 <= y < h. -/
def World.in_bounds (world : World) (x y : ℤ) : Bool :=
  decide (0 ≤ x ∧ x < world.w ∧ 0 ≤ y ∧ y < world.h)

/-- Trophy manager state (sim/trophy.py, class TrophyManager): the enabled
flag of its config, the found flag and the trophy position. -/
structure TrophyState where
  enabled : Bool
  found : Bool
  trophy_x : ℤ
  trophy_y : ℤ
deriving DecidableEq, Repr

/-- check_found (sim/trophy.py, lines 57-64): early return False when the
trophy is disabled or already found; otherwise found-and-return-True exactly
when the player is within Chebyshev distance 1 of the trophy. -/
def checkFound (t : TrophyState) (player_x player_y : ℤ) : TrophyState × Bool :=
  if !t.enabled || t.found then (t, false)
  else if |player_x - t.trophy_x| ≤ 1 ∧ |player_y - t.trophy_y| ≤ 1 then
    ({ t with found := true }, true)
  else (t, false)

/-- rng.integers(lo, hi) draws kept inside [lo, hi) (half-open, as numpy). -/
def rngIntegers (rng : Rng) (lo hi : ℤ) : ℤ × Rng := rng.nextInt lo hi

/-- The rejection-sampling loop of _place_trophy (sim/trophy.py, lines
45-52), fuel = remaining attempts (2000 in the source): draw x in
[3, w-3) and y in [3, h-3); accept when the Manhattan distance from the
player spawn is at least min_dist and the cell is not water. -/
def placeTrophyLoop (world : World) (px py min_dist : ℤ) :
    ℕ → Rng → Option (ℤ × ℤ) × Rng
  | 0, rng => (none, rng)
  | Nat.succ n, rng =>
    let (x, rng) := rngIntegers rng 3 (world.w - 3)
    let (y, rng) := rngIntegers rng 3 (world.h - 3)
    if |x - px| + |y - py| ≥ min_dist ∧ world.terrainAt x y ≠ Terrain.WATER then
      (some (x, y), rng)
    else placeTrophyLoop world px py min_dist n rng

/-- _place_trophy (sim/trophy.py, lines 38-55): 2000 sampling attempts, then
the deterministic fallback max(3, min(w-4, w-px-1)), max(3, min(h-4, h-py-1)). -/
def placeTrophy (world : World) (px py min_dist : ℤ) (rng : Rng) : (ℤ × ℤ) × Rng :=
  match placeTrophyLoop world px py min_dist 2000 rng with
  | (some p, rng) => (p, rng)
  | (none, rng) =>
    ((max 3 (min (world.w - 4) (world.w - px - 1)),
      max 3 (min (world.h - 4) (world.h - py - 1))), rng)

/-- An enabled, not-yet-found trophy at position (5, 5). -/
def goalTrophy : TrophyState := ⟨true, false, 5, 5⟩

/-- A 50×50 world consisting entirely of water. -/
def allWaterWorld : World :=
  ⟨50, 50, fun _ _ => Terrain.WATER, fun _ _ => 0, fun _ _ => 0⟩

/-- A 50×50 world consisting entirely of plains. -/
def allPlainsWorld : World :=
  ⟨50, 50, fun _ _ => Terrain.PLAINS, fun _ _ => 0, fun _ _ => 0⟩

/-- Hunter NPC (sim/hunters.py, class Hunter). -/
structure Hunter where
  id : ℕ
  x : ℤ
  y : ℤ
  detection_radius : ℤ
  chase_speed : ℕ
  patrol_speed : ℕ
  is_chasing : Bool := false
  patrol_direction : ℤ × ℤ := (1, 0)
  steps_since_direction_change : ℕ := 0
deriving DecidableEq, Repr

/-- Hunter.manhattan_distance_to (sim/hunters.py, lines 34-36). -/
def Hunter.manhattanDistanceTo (h : Hunter) (tx ty : ℤ) : ℤ :=
  |h.x - tx| + |h.y - ty|

/-- The detection test dist <= detection_radius of HunterManager.update,
where dist is Hunter.distance_to, the Euclidean math.sqrt distance: with an
integer radius r, sqrt(d2) <= r holds exactly when 0 <= r and d2 <= r^2. -/
def withinDetection (h : Hunter) (tx ty : ℤ) : Bool :=
  decide (0 ≤ h.detection_radius ∧
    (h.x - tx) ^ 2 + (h.y - ty) ^ 2 ≤ h.detection_radius ^ 2)

/-- Values of the JSON-like dicts surfaced to the observation layer. -/
inductive JVal where
  | jInt (i : ℤ)
  | jBool (b : Bool)
  | jPos (x y : ℤ)
deriving DecidableEq, Repr

/-- One element of the list built by get_visible_hunters: the dict with
exactly the keys id, pos, distance, is_chasing (in source order). -/
def visibleRecord (h : Hunter) (dist : ℤ) : List (String × JVal) :=
  [("id", JVal.jInt h.id), ("pos", JVal.jPos h.x h.y),
   ("distance", JVal.jInt dist), ("is_chasing", JVal.jBool h.is_chasing)]

/-- get_visible_hunters (sim/hunters.py, lines 168-189), recursion over the
hunter list mirroring the source loop. -/
def getVisibleHunters (hunters : List Hunter) (player_x player_y : ℤ)
    (visibility_radius : ℤ) : List (List (String × JVal)) :=
  match hunters with
  | [] => []
  | h :: rest =>
    let dist := h.manhattanDistanceTo player_x player_y
    if dist ≤ visibility_radius then
      visibleRecord h dist ::
        getVisibleHunters rest player_x player_y visibility_radius
    else getVisibleHunters rest player_x player_y visibility_radius

/-- One sub-step of HunterManager._move_toward (sim/hunters.py, lines
122-144): prefer the axis with the greater remaining distance, avoid water
by trying the perpendicular axis. -/
def moveTowardStep (world : World) (h : Hunter) (tx ty : ℤ) : Hunter :=
  let dx : ℤ := if tx = h.x then 0 else if tx > h.x then 1 else -1
  let dy : ℤ := if ty = h.y then 0 else if ty > h.y then 1 else -1
  let n := if |tx - h.x| ≥ |ty - h.y| then (h.x + dx, h.y) else (h.x, h.y + dy)
  if world.in_bounds n.1 n.2 then
    if world.terrainAt n.1 n.2 ≠ Terrain.WATER then { h with x := n.1, y := n.2 }
    else
      let a := if |tx - h.x| ≥ |ty - h.y| then (h.x, h.y + dy) else (h.x + dx, h.y)
      if world.in_bounds a.1 a.2 ∧ world.terrainAt a.1 a.2 ≠ Terrain.WATER then
        { h with x := a.1, y := a.2 }
      else h
  else h

/-- _move_toward: up to speed sub-steps toward the target. -/
def moveToward (world : World) (h : Hunter) (tx ty : ℤ) : ℕ → Hunter
  | 0 => h
  | Nat.succ n => moveToward world (moveTowardStep world h tx ty) tx ty n

/-- The four patrol directions (sim/hunters.py, dirs). -/
def patrolDirs : List (ℤ × ℤ) := [(0, 1), (0, -1), (1, 0), (-1, 0)]

/-- HunterManager._patrol (sim/hunters.py, lines 146-166). The random draw
happens only when steps_since_direction_change exceeds 5 (Python evaluates
the conjunction left to right with short-circuit). -/
def patrol (world : World) (h : Hunter) (rng : Rng) : Hunter × Rng :=
  let h := { h with
    steps_since_direction_change := h.steps_since_direction_change + 1 }
  let (h, rng) :=
    if 5 < h.steps_since_direction_change then
      let (u, rng) := rng.nextFloat
      if u < 0.2 then
        let (i, rng) := rng.nextInt 0 4
        ({ h with patrol_direction := patrolDirs.getD i.toNat (0, 0),
                  steps_since_direction_change := 0 }, rng)
      else (h, rng)
    else (h, rng)
  let d := h.patrol_direction
  let nx := h.x + d.1
  let ny := h.y + d.2
  if world.in_bounds nx ny then
    if world.terrainAt nx ny ≠ Terrain.WATER then ({ h with x := nx, y := ny }, rng)
    else ({ h with patrol_direction := (-d.1, -d.2) }, rng)
  else ({ h with patrol_direction := (-d.1, -d.2) }, rng)

/-- The per-hunter body of HunterManager.update (sim/hunters.py, lines
105-114): detection check, then chase movement or patrol. -/
def updateHunter (world : World) (px py : ℤ) (h : Hunter) (rng : Rng) :
    Hunter × Rng :=
  if withinDetection h px py then
    (moveToward world { h with is_chasing := true } px py h.chase_speed, rng)
  else patrol world { h with is_chasing := false } rng

/-- HunterManager.update (sim/hunters.py, lines 99-120): move every hunter in
list order; killer_id is overwritten by the id of each hunter that ends
within Manhattan distance 1 of the player, and the final value is returned. -/
def updateHunters (world : World) (px py : ℤ) :
    List Hunter → Rng → List Hunter × Rng × Option ℕ
  | [], rng => ([], rng, none)
  | h :: rest, rng =>
    let (h2, rng) := updateHunter world px py h rng
    let (rest2, rng, killer) := updateHunters world px py rest rng
    let killer := match killer with
      | some k => some k
      | none => if h2.manhattanDistanceTo px py ≤ 1 then some h2.id else none
    (h2 :: rest2, rng, killer)

/-- Modelled from the spec: the id of the FIRST adversary in iteration order
within Manhattan distance 1 of the player. -/
def firstAdjacentId (hunters : List Hunter) (px py : ℤ) : Option ℕ :=
  match hunters with
  | [] => none
  | h :: rest =>
    if h.manhattanDistanceTo px py ≤ 1 then some h.id
    else firstAdjacentId rest px py

/-- The id of the LAST hunter in iteration order within Manhattan distance 1
of the player: what the overwriting loop of update actually keeps. -/
def lastAdjacentId (hunters : List Hunter) (px py : ℤ) : Option ℕ :=
  match hunters with
  | [] => none
  | h :: rest =>
    match lastAdjacentId rest px py with
    | some k => some k
    | none => if h.manhattanDistanceTo px py ≤ 1 then some h.id else none

/-- A hunter with id 0 standing at (5, 5), detection radius 5. -/
def hunterA : Hunter :=
  { id := 0, x := 5, y := 5, detection_radius := 5, chase_speed := 2, patrol_speed := 1 }

/-- A hunter with id 1 standing at (5, 5), detection radius 5. -/
def hunterB : Hunter :=
  { id := 1, x := 5, y := 5, detection_radius := 5, chase_speed := 2, patrol_speed := 1 }

/-- A hunter with id 3 standing at (7, 7), detection radius 4. -/
def hunterW : Hunter :=
  { id := 3, x := 7, y := 7, detection_radius := 4, chase_speed := 2, patrol_speed := 1 }

/-- _get_action_mask (sim/observation.py, lines 200-228). The source takes
the organism as an argument but never reads it, and returns the string
values of the listed actions; the embedding returns the ActionType values
themselves. -/
def getActionMask (world : World) (organism : OrganismState) (x y : ℤ) :
    List ActionType :=
  let actions := [ActionType.REST, ActionType.HIDE, ActionType.SIGNAL]
  let actions := actions ++
    (if world.in_bounds x (y - 1) then [ActionType.MOVE_N] else [])
  let actions := actions ++
    (if world.in_bounds x (y + 1) then [ActionType.MOVE_S] else [])
  let actions := actions ++
    (if world.in_bounds (x + 1) y then [ActionType.MOVE_E] else [])
  let actions := actions ++
    (if world.in_bounds (x - 1) y then [ActionType.MOVE_W] else [])
  let actions := actions ++
    (if world.water_availability x y > 0.1 then [ActionType.DRINK] else [])
  let actions := actions ++
    (if world.vegetation_biomass x y > 0.1 then [ActionType.FORAGE] else [])
  let actions := actions ++
    (if world.terrainAt x y ≠ Terrain.WATER then [ActionType.BUILD_SHELTER] else [])
  actions

/-- C1: the claim says that once alive=false with cause_of_death=HUNTED, the
death check performed later in the same tick leaves the cause equal to HUNTED
even when a physiological threshold (hydration ≤ death_hydration) is also
crossed. The code of check_death has no early exit for already-dead states:
on the failing input it overwrites HUNTED with DEHYDRATION, contradicting the
spec's stated invariant that once alive=false no further mutation changes the
cause of death. This theorem evaluates the code at the failing input. -/
theorem checkDeath_overwrites_hunted_cause :
    huntedDehydrated.alive = false ∧
    huntedDehydrated.cause_of_death = CauseOfDeath.HUNTED ∧
    huntedDehydrated.hydration ≤ defaultPhysiologyConfig.death_hydration ∧
    (checkDeath huntedDehydrated defaultPhysiologyConfig).1.cause_of_death
      = CauseOfDeath.DEHYDRATION ∧
    CauseOfDeath.DEHYDRATION ≠ CauseOfDeath.HUNTED := by
  refine ⟨rfl, rfl, by norm_num [huntedDehydrated, defaultPhysiologyConfig], ?_, by decide⟩
  norm_num [checkDeath, huntedDehydrated, defaultPhysiologyConfig]

/-- C2: when at least one death threshold is crossed, check_death sets
cause_of_death to the first crossed threshold in the fixed priority order
dehydration > starvation > hypothermia > hyperthermia > trauma > infection,
and returns true. -/
theorem checkDeath_priority (s : OrganismState) (cfg : PhysiologyConfig)
    (c : CauseOfDeath) (hcross : priorityCauseSpec s cfg = some c) :
    (checkDeath s cfg).1.cause_of_death = c ∧ (checkDeath s cfg).2 = true := by
  unfold priorityCauseSpec at hcross
  unfold checkDeath
  split_ifs at hcross ⊢ <;> simp_all

/-- Witness for C2: an alive organism with hydration = 0 crosses the
dehydration threshold of the default configuration; check_death returns true
with cause DEHYDRATION. -/
theorem checkDeath_priority_witness :
    (checkDeath aliveZeroHydration defaultPhysiologyConfig).1.cause_of_death
      = CauseOfDeath.DEHYDRATION ∧
    (checkDeath aliveZeroHydration defaultPhysiologyConfig).2 = true :=
  checkDeath_priority aliveZeroHydration defaultPhysiologyConfig
    CauseOfDeath.DEHYDRATION (by norm_num [priorityCauseSpec, aliveZeroHydration,
      defaultPhysiologyConfig])

/-- Counterexample to C3: an organism already dead on entry (alive=false,
every vital safely inside the thresholds, so no transition occurs during the
call) for which check_death returns true; the claim says such a call returns
false. -/
theorem checkDeath_not_idempotent_return :
    deadSafeVitals.alive = false ∧
    (checkDeath deadSafeVitals defaultPhysiologyConfig).1.alive = false ∧
    (checkDeath deadSafeVitals defaultPhysiologyConfig).2 = true := by
  refine ⟨rfl, ?_, ?_⟩ <;> norm_num [checkDeath, deadSafeVitals, defaultPhysiologyConfig]

/-- C3 (amended): check_death returns whether the state is dead AFTER the
call (it returns not alive), not whether a transition occurred during the
call; consequently for a state already dead on entry it returns true, and
only for alive-on-entry states does the return value coincide with a
transition to dead having occurred this call. -/
theorem checkDeath_returns_dead_after (s : OrganismState) (cfg : PhysiologyConfig) :
    (checkDeath s cfg).2 = !(checkDeath s cfg).1.alive ∧
    (s.alive = false → (checkDeath s cfg).2 = true) ∧
    (s.alive = true →
      ((checkDeath s cfg).2 = true ↔
        (s.alive = true ∧ (checkDeath s cfg).1.alive = false))) := by
  unfold checkDeath
  split_ifs <;> simp_all

/-- Witness for C3 (amended): evaluating the amended statement at a concrete
already-dead state and at a concrete alive state. -/
theorem checkDeath_returns_dead_after_witness :
    (checkDeath deadSafeVitals defaultPhysiologyConfig).2 = true ∧
    ((checkDeath aliveZeroHydration defaultPhysiologyConfig).2 = true ↔
      (aliveZeroHydration.alive = true ∧
        (checkDeath aliveZeroHydration defaultPhysiologyConfig).1.alive = false)) :=
  ⟨(checkDeath_returns_dead_after deadSafeVitals defaultPhysiologyConfig).2.1 rfl,
   (checkDeath_returns_dead_after aliveZeroHydration defaultPhysiologyConfig).2.2 rfl⟩

/-- clamp with bounds 0 and 100 is at least 0. -/
theorem clamp_nonneg (v : ℚ) : 0 ≤ clamp v 0 100 := le_max_left 0 _

/-- clamp with bounds 0 and 100 is at most 100. -/
theorem clamp_le_hundred (v : ℚ) : clamp v 0 100 ≤ 100 :=
  max_le (by norm_num) (min_le_left _ _)

/-- C5: for every input (and dt > 0), after apply_physiology each of the
five vitals hydration, energy, fatigue, injury, infection lies in [0,100],
while core_temp_c is never clamped: it equals exactly the previous core
temperature plus the unclamped thermal drift, so it may take any value. -/
theorem applyPhysiology_bounds (s : OrganismState) (action : ActionType)
    (air_temp : ℚ) (shelter_active : Bool) (movement_cost dt : ℚ)
    (cfg : PhysiologyConfig) (difficulty_mult : ℚ) (p : OrganismState)
    (hdt : 0 < dt)
    (hp : p = applyPhysiology s action air_temp shelter_active movement_cost dt
      cfg difficulty_mult) :
    (0 ≤ p.hydration ∧ p.hydration ≤ 100) ∧
    (0 ≤ p.energy ∧ p.energy ≤ 100) ∧
    (0 ≤ p.fatigue ∧ p.fatigue ≤ 100) ∧
    (0 ≤ p.injury ∧ p.injury ≤ 100) ∧
    (0 ≤ p.infection ∧ p.infection ≤ 100) ∧
    p.core_temp_c = s.core_temp_c +
      (air_temp - s.core_temp_c) *
        (cfg.thermal_drift_k * (if shelter_active then 0.3 else 1)) * dt := by
  subst hp
  exact ⟨⟨clamp_nonneg _, clamp_le_hundred _⟩, ⟨clamp_nonneg _, clamp_le_hundred _⟩,
    ⟨clamp_nonneg _, clamp_le_hundred _⟩, ⟨clamp_nonneg _, clamp_le_hundred _⟩,
    ⟨clamp_nonneg _, clamp_le_hundred _⟩, rfl⟩

/-- Witness for C5: the bounds and the exact unclamped core-temperature
equation, evaluated for the default organism resting at ambient 20°C. -/
theorem applyPhysiology_bounds_witness :
    (0 ≤ (applyPhysiology baseState ActionType.REST 20 false 1 1
        defaultPhysiologyConfig 1).hydration ∧
      (applyPhysiology baseState ActionType.REST 20 false 1 1
        defaultPhysiologyConfig 1).hydration ≤ 100) ∧
    (0 ≤ (applyPhysiology baseState ActionType.REST 20 false 1 1
        defaultPhysiologyConfig 1).energy ∧
      (applyPhysiology baseState ActionType.REST 20 false 1 1
        defaultPhysiologyConfig 1).energy ≤ 100) ∧
    (0 ≤ (applyPhysiology baseState ActionType.REST 20 false 1 1
        defaultPhysiologyConfig 1).fatigue ∧
      (applyPhysiology baseState ActionType.REST 20 false 1 1
        defaultPhysiologyConfig 1).fatigue ≤ 100) ∧
    (0 ≤ (applyPhysiology baseState ActionType.REST 20 false 1 1
        defaultPhysiologyConfig 1).injury ∧
      (applyPhysiology baseState ActionType.REST 20 false 1 1
        defaultPhysiologyConfig 1).injury ≤ 100) ∧
    (0 ≤ (applyPhysiology baseState ActionType.REST 20 false 1 1
        defaultPhysiologyConfig 1).infection ∧
      (applyPhysiology baseState ActionType.REST 20 false 1 1
        defaultPhysiologyConfig 1).infection ≤ 100) ∧
    (applyPhysiology baseState ActionType.REST 20 false 1 1
        defaultPhysiologyConfig 1).core_temp_c = baseState.core_temp_c +
      (20 - baseState.core_temp_c) *
        (defaultPhysiologyConfig.thermal_drift_k * (if false then 0.3 else 1)) * 1 :=
  applyPhysiology_bounds baseState ActionType.REST 20 false 1 1
    defaultPhysiologyConfig 1 _ (by norm_num) rfl

/-- min 100 (max 0 v) is at least 0. -/
theorem minmax_nonneg (v : ℚ) : 0 ≤ min 100 (max 0 v) :=
  le_min (by norm_num) (le_max_left 0 v)

/-- min 100 (max 0 v) is at most 100. -/
theorem minmax_le_hundred (v : ℚ) : min 100 (max 0 v) ≤ 100 := min_le_left _ _

/-- C10: when the Bernoulli draw of check_wildlife_encounter produces no
encounter, the organism state is returned completely unchanged and the
injury/energy/infection deltas are all exactly 0; when an encounter occurs,
the mutated injury, energy and infection are each clamped to [0,100]. -/
theorem checkWildlifeEncounter_no_mutation (s : OrganismState)
    (wildlife_risk : ℚ) (terrain : Terrain) (hour : ℤ) (action : ActionType)
    (rng : Rng) (hazard_multiplier : ℚ)
    (res : OrganismState × EncounterResult × Rng)
    (hres : res = checkWildlifeEncounter s wildlife_risk terrain hour action
      rng hazard_multiplier) :
    (res.2.1.encounter = false →
      res.1 = s ∧ res.2.1.injury_delta = 0 ∧ res.2.1.energy_delta = 0 ∧
        res.2.1.infection_delta = 0) ∧
    (res.2.1.encounter = true →
      (0 ≤ res.1.injury ∧ res.1.injury ≤ 100) ∧
      (0 ≤ res.1.energy ∧ res.1.energy ≤ 100) ∧
      (0 ≤ res.1.infection ∧ res.1.infection ≤ 100)) := by
  subst hres
  simp only [checkWildlifeEncounter]
  split
  · exact ⟨by simp, fun _ => ⟨⟨minmax_nonneg _, minmax_le_hundred _⟩,
      ⟨minmax_nonneg _, minmax_le_hundred _⟩, ⟨minmax_nonneg _, minmax_le_hundred _⟩⟩⟩
  · exact ⟨fun _ => ⟨rfl, rfl, rfl, rfl⟩, by simp⟩

/-- Witness for C10: with wildlife risk 0 the encounter probability is 0, the
draw produces no encounter, and the organism comes back unchanged with all
three deltas equal to 0. -/
theorem checkWildlifeEncounter_no_mutation_witness :
    (checkWildlifeEncounter baseState 0 Terrain.PLAINS 12 ActionType.REST
        emptyRng 1).1 = baseState ∧
    (checkWildlifeEncounter baseState 0 Terrain.PLAINS 12 ActionType.REST
        emptyRng 1).2.1.injury_delta = 0 ∧
    (checkWildlifeEncounter baseState 0 Terrain.PLAINS 12 ActionType.REST
        emptyRng 1).2.1.energy_delta = 0 ∧
    (checkWildlifeEncounter baseState 0 Terrain.PLAINS 12 ActionType.REST
        emptyRng 1).2.1.infection_delta = 0 :=
  (checkWildlifeEncounter_no_mutation baseState 0 Terrain.PLAINS 12
      ActionType.REST emptyRng 1 _ rfl).1
    (by norm_num [checkWildlifeEncounter, Rng.nextFloat, hazardTimeMultiplier,
      stealthModifier, emptyRng])

/-- check_found of a trophy already found returns the state unchanged and
False, whatever the player position. -/
theorem checkFound_of_found (t : TrophyState) (px py : ℤ) (h : t.found = true) :
    checkFound t px py = (t, false) := by
  unfold checkFound
  simp [h]

/-- C6: for an enabled goal, the found-check returns true exactly when the
goal is not yet found and the player is within Chebyshev distance 1; it sets
the found flag in exactly that case; once found, every call returns false and
leaves the state unchanged; and after any call that returned true, every
later call returns false regardless of player position. -/
theorem checkFound_once (t : TrophyState) (px py : ℤ) (hen : t.enabled = true) :
    ((checkFound t px py).2 = true ↔
      (t.found = false ∧ |px - t.trophy_x| ≤ 1 ∧ |py - t.trophy_y| ≤ 1)) ∧
    ((checkFound t px py).1.found
      = (t.found || decide (|px - t.trophy_x| ≤ 1 ∧ |py - t.trophy_y| ≤ 1))) ∧
    (t.found = true → checkFound t px py = (t, false)) ∧
    ((checkFound t px py).2 = true →
      ∀ qx qy : ℤ, (checkFound (checkFound t px py).1 qx qy).2 = false) := by
  have hret : (checkFound t px py).2 = true ↔
      (t.found = false ∧ |px - t.trophy_x| ≤ 1 ∧ |py - t.trophy_y| ≤ 1) := by
    unfold checkFound
    split_ifs <;> simp_all
  have hpost : (checkFound t px py).1.found
      = (t.found || decide (|px - t.trophy_x| ≤ 1 ∧ |py - t.trophy_y| ≤ 1)) := by
    unfold checkFound
    split_ifs <;> simp_all
  refine ⟨hret, hpost, fun hf => checkFound_of_found t px py hf, ?_⟩
  intro h2 qx qy
  have hfound : (checkFound t px py).1.found = true := by
    rcases hret.mp h2 with ⟨hf, hc1, hc2⟩
    rw [hpost, hf]
    simp [hc1, hc2]
  rw [checkFound_of_found _ qx qy hfound]

/-- Witness for C6: calling the found-check twice in a row at the goal
position returns true then false. -/
theorem checkFound_once_witness :
    (checkFound goalTrophy 5 5).2 = true ∧
    (checkFound (checkFound goalTrophy 5 5).1 5 5).2 = false :=
  ⟨((checkFound_once goalTrophy 5 5 rfl).1).mpr (by decide),
   (checkFound_once goalTrophy 5 5 rfl).2.2.2
     (((checkFound_once goalTrophy 5 5 rfl).1).mpr (by decide)) 5 5⟩

/-- When every attempt of the sampling loop is rejected forever (here:
every cell is water), the loop never returns a position. -/
theorem placeTrophyLoop_water (world : World)
    (hw : ∀ x y, world.terrainAt x y = Terrain.WATER) (px py min_dist : ℤ)
    (fuel : ℕ) (rng : Rng) :
    (placeTrophyLoop world px py min_dist fuel rng).1 = none := by
  induction fuel generalizing rng with
  | zero => rfl
  | succ n ih =>
    simp only [placeTrophyLoop]
    split
    · simp_all
    · exact ih _

/-- C8 (amended): whenever the rejection-sampling loop of _place_trophy
succeeds within its 2000 attempts, the placed goal position is at Manhattan
distance at least min_dist from the player spawn; the deterministic fallback
placement carries no such guarantee. -/
theorem placeTrophy_min_dist_of_sample (world : World) (px py min_dist : ℤ)
    (rng rng2 : Rng) (x y : ℤ)
    (hs : placeTrophyLoop world px py min_dist 2000 rng = (some (x, y), rng2)) :
    placeTrophy world px py min_dist rng = ((x, y), rng2) ∧
    min_dist ≤ |x - px| + |y - py| := by
  have hdist : ∀ fuel : ℕ, ∀ r : Rng,
      placeTrophyLoop world px py min_dist fuel r = (some (x, y), rng2) →
      min_dist ≤ |x - px| + |y - py| := by
    intro fuel
    induction fuel with
    | zero => intro r hr; simp [placeTrophyLoop] at hr
    | succ n ih =>
      intro r hr
      simp only [placeTrophyLoop] at hr
      split at hr
      · rename_i hcond
        obtain ⟨h1, -⟩ := Prod.mk.injEq .. ▸ hr
        cases hr
        exact hcond.1
      · exact ih _ hr
  refine ⟨?_, hdist 2000 rng hs⟩
  unfold placeTrophy
  rw [hs]

/-- Counterexample to C8: on an all-water 50×50 world with player spawn
(24, 24) and minimum distance 20, all 2000 sampling attempts are rejected
and the deterministic fallback places the goal at (25, 25), at Manhattan
distance 2 < 20 from the spawn. -/
theorem placeTrophy_fallback_too_close :
    (placeTrophy allWaterWorld 24 24 20 emptyRng).1 = (25, 25) ∧
    |(placeTrophy allWaterWorld 24 24 20 emptyRng).1.1 - 24| +
      |(placeTrophy allWaterWorld 24 24 20 emptyRng).1.2 - 24| < 20 := by
  have h := placeTrophyLoop_water allWaterWorld (fun _ _ => rfl) 24 24 20 2000 emptyRng
  have hfall : (placeTrophy allWaterWorld 24 24 20 emptyRng).1 = (25, 25) := by
    unfold placeTrophy
    rcases heq : placeTrophyLoop allWaterWorld 24 24 20 2000 emptyRng with ⟨o, r⟩
    rw [heq] at h
    simp only at h
    subst h
    norm_num [allWaterWorld]
  exact ⟨hfall, by rw [hfall]; decide⟩

/-- Witness for C8 (amended): with spawn (3, 3) and a draw stream proposing
(43, 43), the first sampling attempt succeeds and the placed goal is at
Manhattan distance 80 ≥ 20 from the spawn. -/
theorem placeTrophy_min_dist_witness :
    placeTrophy allPlainsWorld 3 3 20 ⟨[], [40, 40]⟩ = ((43, 43), ⟨[], []⟩) ∧
    (20 : ℤ) ≤ |43 - 3| + |43 - 3| :=
  placeTrophy_min_dist_of_sample allPlainsWorld 3 3 20 ⟨[], [40, 40]⟩ ⟨[], []⟩
    43 43 (by decide)

/-- C7: the visible-adversary list equals the hunters within Manhattan
distance <= the caller-supplied visibility radius, each rendered as a record
whose keys are exactly id, pos, distance, is_chasing - so no record ever
contains a detection-radius field. -/
theorem getVisibleHunters_no_leak (hunters : List Hunter) (px py vr : ℤ) :
    getVisibleHunters hunters px py vr
      = (hunters.filter fun h => h.manhattanDistanceTo px py ≤ vr).map
          (fun h => visibleRecord h (h.manhattanDistanceTo px py)) ∧
    ∀ h : Hunter, ∀ dist : ℤ,
      (visibleRecord h dist).map Prod.fst = ["id", "pos", "distance", "is_chasing"] ∧
      "detection_radius" ∉ (visibleRecord h dist).map Prod.fst := by
  constructor
  · induction hunters with
    | nil => rfl
    | cons h rest ih =>
      simp only [getVisibleHunters, List.filter_cons]
      by_cases hd : h.manhattanDistanceTo px py ≤ vr <;> simp [hd, ih]
  · intro h dist
    refine ⟨rfl, ?_⟩
    simp [visibleRecord]

set_option maxHeartbeats 1000000 in
/-- C9: the action mask contains REST, HIDE and SIGNAL unconditionally; a
movement action exactly when its target cell is in bounds; DRINK exactly
when local water availability > 0.1; FORAGE exactly when local vegetation
biomass > 0.1; BUILD_SHELTER exactly when the current terrain is not water. -/
theorem getActionMask_spec (world : World) (organism : OrganismState) (x y : ℤ) :
    (ActionType.REST ∈ getActionMask world organism x y ∧
     ActionType.HIDE ∈ getActionMask world organism x y ∧
     ActionType.SIGNAL ∈ getActionMask world organism x y) ∧
    ((ActionType.MOVE_N ∈ getActionMask world organism x y) ↔
      world.in_bounds x (y - 1) = true) ∧
    ((ActionType.MOVE_S ∈ getActionMask world organism x y) ↔
      world.in_bounds x (y + 1) = true) ∧
    ((ActionType.MOVE_E ∈ getActionMask world organism x y) ↔
      world.in_bounds (x + 1) y = true) ∧
    ((ActionType.MOVE_W ∈ getActionMask world organism x y) ↔
      world.in_bounds (x - 1) y = true) ∧
    ((ActionType.DRINK ∈ getActionMask world organism x y) ↔
      world.water_availability x y > 0.1) ∧
    ((ActionType.FORAGE ∈ getActionMask world organism x y) ↔
      world.vegetation_biomass x y > 0.1) ∧
    ((ActionType.BUILD_SHELTER ∈ getActionMask world organism x y) ↔
      world.terrainAt x y ≠ Terrain.WATER) := by
  unfold getActionMask
  split_ifs <;> simp_all

/-- Unfolding equation of updateHunters on a cons cell, with the pair match
expressed through projections. -/
theorem updateHunters_cons (world : World) (px py : ℤ) (h : Hunter)
    (rest : List Hunter) (rng : Rng) :
    updateHunters world px py (h :: rest) rng =
      ((updateHunter world px py h rng).1 ::
         (updateHunters world px py rest (updateHunter world px py h rng).2).1,
       (updateHunters world px py rest (updateHunter world px py h rng).2).2.1,
       match (updateHunters world px py rest (updateHunter world px py h rng).2).2.2 with
       | some k => some k
       | none =>
         if (updateHunter world px py h rng).1.manhattanDistanceTo px py ≤ 1 then
           some (updateHunter world px py h rng).1.id
         else none) := rfl

/-- A hunter already standing on its target cell does not move during one
chase sub-step. -/
theorem moveTowardStep_self (world : World) (h : Hunter) :
    moveTowardStep world h h.x h.y = h := by
  obtain ⟨i, x, y, dr, cs, ps, ic, pd, sc⟩ := h
  simp only [moveTowardStep, sub_self, abs_zero, ge_iff_le, le_refl, if_true,
    if_pos, add_zero]
  split_ifs <;> rfl

/-- A hunter already standing on its target cell does not move during chase
movement of any speed. -/
theorem moveToward_self (world : World) (h : Hunter) (n : ℕ) :
    moveToward world h h.x h.y n = h := by
  induction n generalizing h with
  | zero => rfl
  | succ n ih =>
    rw [moveToward, moveTowardStep_self]
    exact ih h

/-- C4 (amended): the killer id returned by update is the id of the LAST
hunter in iteration order that ends within Manhattan distance 1 of the
player after its own movement resolves (each adjacent hunter overwrites
killer_id); a single hunter placed at the player's exact position (with a
nonnegative detection radius, as every spawned hunter has) is returned as
the killer. -/
theorem updateHunters_killer_last (world : World) (px py : ℤ)
    (hunters : List Hunter) (rng : Rng) :
    (updateHunters world px py hunters rng).2.2
      = lastAdjacentId (updateHunters world px py hunters rng).1 px py ∧
    (∀ h : Hunter, h.x = px → h.y = py → 0 ≤ h.detection_radius →
      (updateHunters world px py [h] rng).2.2 = some h.id) := by
  constructor
  · induction hunters generalizing rng with
    | nil => rfl
    | cons h rest ih =>
      rw [updateHunters_cons]
      dsimp only
      simp only [lastAdjacentId]
      rw [← ih]
  · intro h hx hy hr
    have hdet : withinDetection h px py = true := by
      simp [withinDetection, hx, hy, hr]
    have hmv : moveToward world { h with is_chasing := true } px py h.chase_speed
        = { h with is_chasing := true } := by
      have hs := moveToward_self world { h with is_chasing := true } h.chase_speed
      simpa [hx, hy] using hs
    simp only [updateHunters, updateHunter, hdet, if_true, hmv]
    simp [Hunter.manhattanDistanceTo, hx, hy]

/-- Counterexample to C4: two hunters, ids 0 then 1 in iteration order, both
standing at the player's exact position; update returns the id of the LAST
adjacent hunter (1), while the first adjacent hunter in iteration order has
id 0. -/
theorem updateHunters_not_first :
    (updateHunters allPlainsWorld 5 5 [hunterA, hunterB] emptyRng).2.2 = some 1 ∧
    firstAdjacentId
      (updateHunters allPlainsWorld 5 5 [hunterA, hunterB] emptyRng).1 5 5 = some 0 ∧
    (1 : ℕ) ≠ 0 := by
  refine ⟨?_, ?_, by decide⟩ <;> decide

/-- Witness for C4 (amended): a single hunter with id 3 placed at the
player's exact position (7, 7) is returned as the killer. -/
theorem updateHunters_killer_last_witness :
    (updateHunters allPlainsWorld 7 7 [hunterW] emptyRng).2.2 = some 3 :=
  (updateHunters_killer_last allPlainsWorld 7 7 [hunterW] emptyRng).2 hunterW
    rfl rfl (by decide)

end Earth33
